import Mathlib

/-!
Shallow embedding of `src/roi.py` (daylitx-roi-calculator).

Python floats are modelled by `ℚ` (the computations are plain field
arithmetic), Python `int` fields by `ℤ`, `float("inf")` as an absent upper
bound (`Option ℚ`), and the possibly-infinite ROI value by the two-case
type `RoiVal`.  `None` from `get_industry_benchmark_dso` is `Option`.
-/

/-- Result of `compute_roi_pct`: either a finite rational or `float("inf")`. -/
inductive RoiVal where
  | finite (q : ℚ)
  | posInf
deriving DecidableEq, Repr

/-- One row of the `TIERS` table: `(name, lower, upper, annual price)`;
`upper = none` models `float("inf")`. -/
structure TierRow where
  name : String
  lower : ℚ
  upper : Option ℚ
  price : ℚ
deriving DecidableEq, Repr

/-- The `TIERS` table from `roi.py`. -/
def TIERS : List TierRow :=
  [⟨"Small", 0, some 25000000, 12000⟩,
   ⟨"Middle market", 25000000, some 50000000, 60000⟩,
   ⟨"Enterprise", 50000000, none, 100000⟩]

/-- The loop condition `lower <= annual_revenue_arr < upper` of
`determine_tier_and_price`; `x < float("inf")` is always true. -/
def tierRowMatches (q : ℚ) (r : TierRow) : Bool :=
  decide (r.lower ≤ q) && r.upper.elim true (fun u => decide (q < u))

/-- `determine_tier_and_price`: scan `TIERS` for the first matching row,
with the source's fallback `("Enterprise", TIERS[-1][3])`. -/
def determine_tier_and_price (annual_revenue_arr : ℚ) : String × ℚ :=
  match TIERS.find? (tierRowMatches annual_revenue_arr) with
  | some r => (r.name, r.price)
  | none => ("Enterprise", (TIERS.getLastD ⟨"Enterprise", 0, none, 100000⟩).price)

/-- One entry of `INDUSTRY_DATA`. -/
structure IndustryEntry where
  name : String
  acc_rec_to_sales_pct : ℚ
  benchmark_dso_days : ℤ
deriving DecidableEq, Repr

/-- The `INDUSTRY_DATA` table; `benchmark_dso_days = round(ratio * 365)`
as in the source. -/
def INDUSTRY_DATA : List IndustryEntry :=
  [⟨"Retail Distributors", 0.1216, round ((0.1216 : ℚ) * 365)⟩,
   ⟨"Chemical (Specialty)", 0.1764, round ((0.1764 : ℚ) * 365)⟩,
   ⟨"Hospitals/Healthcare Facilities", 0.1447, round ((0.1447 : ℚ) * 365)⟩,
   ⟨"Business & Consumer Services", 0.1829, round ((0.1829 : ℚ) * 365)⟩]

/-- `get_industry_benchmark_dso`: benchmark DSO for the industry, `none`
when the name is not in the table. -/
def get_industry_benchmark_dso (industry : String) : Option ℤ :=
  (INDUSTRY_DATA.find? (fun e => e.name == industry)).map (fun e => e.benchmark_dso_days)

/-- `get_available_industries`. -/
def get_available_industries : List String :=
  INDUSTRY_DATA.map (fun e => e.name)

/-- The `Inputs` dataclass. -/
structure Inputs where
  industry : String
  annual_revenue : ℚ
  ar_headcount : ℤ
  current_dso_days : ℚ
  monthly_invoices : ℤ
  fte_salary_base : ℚ
  bad_debt_pct : ℚ
deriving DecidableEq, Repr

/-- The `Assumptions` dataclass (all fields rational; the two `int` fields
`hours_per_fte_per_year` and `working_days_per_year` only ever occur in
real-valued arithmetic). -/
structure Assumptions where
  cost_of_capital_annual_pct : ℚ
  dso_reduction_relative_pct : ℚ
  bad_debt_reduction_relative_pct : ℚ
  productivity_time_saved_pct : ℚ
  hours_per_fte_per_year : ℚ
  working_days_per_year : ℚ
  percentage_of_time_on_invoices : ℚ
deriving DecidableEq, Repr

/-- The default values of `Assumptions`. -/
def defaultAssumptions : Assumptions :=
  ⟨0.045, 0.40, 0.40, 0.50, 2000, 365, 0.80⟩

/-- The `Results` dataclass. -/
structure Results where
  roi_pct : RoiVal
  cash_flow_improvement_usd : ℚ
  annualized_employee_savings_usd : ℚ
  productivity_hours_saved : ℚ
  bad_debt_savings_usd : ℚ
  opportunity_cost_usd : ℚ
  tier : String
  annual_price_usd : ℚ
deriving DecidableEq, Repr

/-- `compute_cash_flow_improvement`. -/
def compute_cash_flow_improvement (inputs : Inputs) (assumptions : Assumptions) : ℚ :=
  let days_reduced := inputs.current_dso_days * assumptions.dso_reduction_relative_pct
  let average_daily_revenue := inputs.annual_revenue / assumptions.working_days_per_year
  let freed_cash_balance := average_daily_revenue * days_reduced
  max 0 freed_cash_balance

/-- `compute_annualized_employee_savings`. -/
def compute_annualized_employee_savings (inputs : Inputs) (assumptions : Assumptions) : ℚ :=
  let hourly_wage := inputs.fte_salary_base / assumptions.hours_per_fte_per_year
  let time_spent_on_invoices :=
    assumptions.hours_per_fte_per_year * assumptions.percentage_of_time_on_invoices
  let savings :=
    (inputs.ar_headcount : ℚ) * time_spent_on_invoices
      * assumptions.productivity_time_saved_pct * hourly_wage
  max 0 savings

/-- `compute_productivity_hours_saved`. -/
def compute_productivity_hours_saved (inputs : Inputs) (assumptions : Assumptions) : ℚ :=
  let total_hours :=
    (inputs.ar_headcount : ℚ) * assumptions.hours_per_fte_per_year
      * assumptions.productivity_time_saved_pct * assumptions.percentage_of_time_on_invoices
  max 0 total_hours

/-- `compute_bad_debt_savings`. -/
def compute_bad_debt_savings (inputs : Inputs) (assumptions : Assumptions) : ℚ :=
  let estimated_ar_balance :=
    inputs.annual_revenue * (inputs.current_dso_days / assumptions.working_days_per_year)
  let baseline_bad_debt := estimated_ar_balance * inputs.bad_debt_pct
  let savings := baseline_bad_debt * assumptions.bad_debt_reduction_relative_pct
  max 0 savings

/-- `compute_roi_pct`. -/
def compute_roi_pct (total_benefit_usd annual_price_usd : ℚ) : RoiVal :=
  if annual_price_usd ≤ 0 then
    if total_benefit_usd > 0 then RoiVal.posInf else RoiVal.finite 0
  else
    RoiVal.finite ((total_benefit_usd - annual_price_usd) / annual_price_usd * 100)

/-- `calculate_all`. -/
def calculate_all (inputs : Inputs) (assumptions : Assumptions) : Results :=
  let tp := determine_tier_and_price inputs.annual_revenue
  let cash_flow_improvement := compute_cash_flow_improvement inputs assumptions
  let employee_savings := compute_annualized_employee_savings inputs assumptions
  let productivity_hours_saved := compute_productivity_hours_saved inputs assumptions
  let bad_debt_savings := compute_bad_debt_savings inputs assumptions
  let total_benefit := employee_savings + bad_debt_savings
  let roi_pct := compute_roi_pct total_benefit tp.2
  let opportunity_cost := total_benefit * assumptions.cost_of_capital_annual_pct
  ⟨roi_pct, cash_flow_improvement, employee_savings, productivity_hours_saved,
   bad_debt_savings, opportunity_cost, tp.1, tp.2⟩

/-- "roi_pct > 0" for a possibly infinite ROI value. -/
def RoiVal.isPos : RoiVal → Prop
  | .finite q => 0 < q
  | .posInf => True

/-- "roi_pct = 0" for a possibly infinite ROI value. -/
def RoiVal.isZero : RoiVal → Prop
  | .finite q => q = 0
  | .posInf => False

/-- "roi_pct < 0" for a possibly infinite ROI value. -/
def RoiVal.isNeg : RoiVal → Prop
  | .finite q => q < 0
  | .posInf => False

/-- The sample inputs of the source demo and of the spec's end-to-end test. -/
def sampleInputs : Inputs :=
  ⟨"Hospitals/Healthcare Facilities", 1200000, 3, 65, 5000, 80000, 0.05⟩

/-- An `Inputs` record with a negative base salary, exercising the
unvalidated-input corner of the formulas. -/
def negSalaryInputs : Inputs :=
  ⟨"X", 0, 1, 0, 0, -2000, 0⟩

lemma tier_small (q : ℚ) (h0 : 0 ≤ q) (h1 : q < 25000000) :
    determine_tier_and_price q = ("Small", 12000) := by
  simp [determine_tier_and_price, TIERS, List.find?, tierRowMatches, h0, h1]

lemma tier_mid (q : ℚ) (h0 : 25000000 ≤ q) (h1 : q < 50000000) :
    determine_tier_and_price q = ("Middle market", 60000) := by
  have h2 : ¬ q < 25000000 := not_lt.mpr h0
  have h3 : (0 : ℚ) ≤ q := le_trans (by norm_num) h0
  simp [determine_tier_and_price, TIERS, List.find?, tierRowMatches, h0, h1, h2, h3]

lemma tier_ent (q : ℚ) (h0 : 50000000 ≤ q) :
    determine_tier_and_price q = ("Enterprise", 100000) := by
  have h1 : ¬ q < 50000000 := not_lt.mpr h0
  have h2 : ¬ q < 25000000 := by intro h; exact h1 (lt_trans h (by norm_num))
  have h3 : (0 : ℚ) ≤ q := le_trans (by norm_num) h0
  simp [determine_tier_and_price, TIERS, List.find?, tierRowMatches, h0, h1, h2, h3]

lemma tier_neg (q : ℚ) (h0 : q < 0) :
    determine_tier_and_price q = ("Enterprise", 100000) := by
  have h1 : ¬ (0 : ℚ) ≤ q := not_le.mpr h0
  have h2 : ¬ (25000000 : ℚ) ≤ q := by intro h; exact h1 (le_trans (by norm_num) h)
  have h3 : ¬ (50000000 : ℚ) ≤ q := by intro h; exact h1 (le_trans (by norm_num) h)
  simp [determine_tier_and_price, TIERS, List.find?, tierRowMatches, h1, h2, h3, List.getLastD]

lemma tier_cases (q : ℚ) :
    determine_tier_and_price q = ("Small", 12000) ∨
    determine_tier_and_price q = ("Middle market", 60000) ∨
    determine_tier_and_price q = ("Enterprise", 100000) := by
  rcases lt_or_le q 0 with h | h
  · exact Or.inr (Or.inr (tier_neg q h))
  rcases lt_or_le q 25000000 with h1 | h1
  · exact Or.inl (tier_small q h h1)
  rcases lt_or_le q 50000000 with h2 | h2
  · exact Or.inr (Or.inl (tier_mid q h1 h2))
  · exact Or.inr (Or.inr (tier_ent q h2))

lemma price_pos (q : ℚ) : 0 < (determine_tier_and_price q).2 := by
  rcases tier_cases q with h | h | h <;> rw [h] <;> norm_num

lemma calculate_all_sample :
    calculate_all sampleInputs defaultAssumptions =
      ⟨RoiVal.finite (53700/73), 6240000/73, 96000, 2400, 312000/73, 329400/73,
       "Small", 12000⟩ := by
  norm_num [calculate_all, compute_annualized_employee_savings, compute_bad_debt_savings,
    compute_cash_flow_improvement, compute_productivity_hours_saved, compute_roi_pct,
    determine_tier_and_price, TIERS, List.find?, tierRowMatches, sampleInputs,
    defaultAssumptions, Results.mk.injEq]

/-- C1 (counterexample): on the spec's sample input the code yields
`annualized_employee_savings_usd = 96000`, not approximately `48000`, and
`roi_pct = 53700/73 ≈ 735.6`, not approximately `327.4`. -/
theorem C1_end_to_end_counterexample :
    (calculate_all sampleInputs defaultAssumptions).annualized_employee_savings_usd = 96000 ∧
    ¬ |(96000 : ℚ) - 48000| ≤ 4800 ∧
    (calculate_all sampleInputs defaultAssumptions).roi_pct = RoiVal.finite (53700 / 73) ∧
    ¬ |(53700 / 73 : ℚ) - 327.4| ≤ 33 := by
  rw [calculate_all_sample]
  norm_num [abs_le]

/-- C1 (amended): the sample input with default assumptions yields tier
"Small", price 12000, cash-flow improvement 6240000/73 (≈ 85479.45),
employee savings 96000, productivity hours 2400, bad-debt savings
312000/73 (≈ 4273.97), total benefit 7320000/73 (≈ 100273.97) and
roi_pct 53700/73 (≈ 735.62). -/
theorem C1_end_to_end_amended :
    (calculate_all sampleInputs defaultAssumptions).tier = "Small" ∧
    (calculate_all sampleInputs defaultAssumptions).annual_price_usd = 12000 ∧
    (calculate_all sampleInputs defaultAssumptions).cash_flow_improvement_usd = 6240000 / 73 ∧
    (calculate_all sampleInputs defaultAssumptions).annualized_employee_savings_usd = 96000 ∧
    (calculate_all sampleInputs defaultAssumptions).productivity_hours_saved = 2400 ∧
    (calculate_all sampleInputs defaultAssumptions).bad_debt_savings_usd = 312000 / 73 ∧
    (calculate_all sampleInputs defaultAssumptions).annualized_employee_savings_usd +
      (calculate_all sampleInputs defaultAssumptions).bad_debt_savings_usd = 7320000 / 73 ∧
    (calculate_all sampleInputs defaultAssumptions).roi_pct = RoiVal.finite (53700 / 73) := by
  rw [calculate_all_sample]
  norm_num

/-- C2: for every `annual_revenue ≥ 0` exactly one row of `TIERS` matches,
the resolver returns that row's name and price, and the three boundary
inputs resolve as the spec states. -/
theorem C2_tier_resolver :
    (∀ q : ℚ, 0 ≤ q →
      TIERS.countP (fun r => tierRowMatches q r) = 1 ∧
      ∀ r ∈ TIERS, tierRowMatches q r = true →
        determine_tier_and_price q = (r.name, r.price)) ∧
    determine_tier_and_price 25000000 = ("Middle market", 60000) ∧
    determine_tier_and_price (2499999999 / 100) = ("Small", 12000) ∧
    determine_tier_and_price 50000000 = ("Enterprise", 100000) := by
  refine ⟨fun q hq => ?_, ?_, ?_, ?_⟩
  · rcases lt_or_le q 25000000 with h1 | h1
    · have h2 : ¬ (25000000 : ℚ) ≤ q := not_le.mpr h1
      have h3 : ¬ (50000000 : ℚ) ≤ q := not_le.mpr (lt_trans h1 (by norm_num))
      constructor
      · simp [TIERS, List.countP_cons, tierRowMatches, hq, h1, h2, h3]
      · intro r hr hm
        fin_cases hr
        · exact tier_small q hq h1
        · exfalso
          simp [tierRowMatches] at hm
          exact h2 hm.1
        · exfalso
          simp [tierRowMatches] at hm
          exact h3 hm
    rcases lt_or_le q 50000000 with h2 | h2
    · have h3 : ¬ q < 25000000 := not_lt.mpr h1
      have h4 : ¬ (50000000 : ℚ) ≤ q := not_le.mpr h2
      constructor
      · simp [TIERS, List.countP_cons, tierRowMatches, hq, h1, h2, h3, h4]
      · intro r hr hm
        fin_cases hr
        · exfalso
          simp [tierRowMatches] at hm
          exact h3 hm.2
        · exact tier_mid q h1 h2
        · exfalso
          simp [tierRowMatches] at hm
          exact h4 hm
    · have h3 : ¬ q < 25000000 := not_lt.mpr (le_trans (by norm_num) h2)
      have h4 : ¬ q < 50000000 := not_lt.mpr h2
      constructor
      · simp [TIERS, List.countP_cons, tierRowMatches, hq, h2, h3, h4]
      · intro r hr hm
        fin_cases hr
        · exfalso
          simp [tierRowMatches] at hm
          exact h3 hm.2
        · exfalso
          simp [tierRowMatches] at hm
          exact h4 hm.2
        · exact tier_ent q h2
  · exact tier_mid 25000000 (by norm_num) (by norm_num)
  · exact tier_small (2499999999 / 100) (by norm_num) (by norm_num)
  · exact tier_ent 50000000 (by norm_num)

/-- Witness for C2 at `q = 3`. -/
theorem C2_tier_resolver_witness :
    TIERS.countP (fun r => tierRowMatches 3 r) = 1 ∧
    ∀ r ∈ TIERS, tierRowMatches 3 r = true →
      determine_tier_and_price 3 = (r.name, r.price) :=
  C2_tier_resolver.1 3 (by norm_num)

/-- C3: `calculate_all` derives `roi_pct` from
`total_benefit = employee savings + bad-debt savings` alone, and sets
`opportunity_cost_usd = total_benefit * cost_of_capital_annual_pct`. -/
theorem C3_total_benefit_composition (inputs : Inputs) (assumptions : Assumptions)
    (_hw : 0 < assumptions.working_days_per_year)
    (_hh : 0 < assumptions.hours_per_fte_per_year) :
    (calculate_all inputs assumptions).roi_pct =
      compute_roi_pct
        ((calculate_all inputs assumptions).annualized_employee_savings_usd +
          (calculate_all inputs assumptions).bad_debt_savings_usd)
        (calculate_all inputs assumptions).annual_price_usd ∧
    (calculate_all inputs assumptions).opportunity_cost_usd =
      ((calculate_all inputs assumptions).annualized_employee_savings_usd +
        (calculate_all inputs assumptions).bad_debt_savings_usd) *
        assumptions.cost_of_capital_annual_pct :=
  ⟨rfl, rfl⟩

/-- Witness for C3 at the sample input and default assumptions. -/
theorem C3_total_benefit_composition_witness :
    (calculate_all sampleInputs defaultAssumptions).roi_pct =
      compute_roi_pct
        ((calculate_all sampleInputs defaultAssumptions).annualized_employee_savings_usd +
          (calculate_all sampleInputs defaultAssumptions).bad_debt_savings_usd)
        (calculate_all sampleInputs defaultAssumptions).annual_price_usd ∧
    (calculate_all sampleInputs defaultAssumptions).opportunity_cost_usd =
      ((calculate_all sampleInputs defaultAssumptions).annualized_employee_savings_usd +
        (calculate_all sampleInputs defaultAssumptions).bad_debt_savings_usd) *
        defaultAssumptions.cost_of_capital_annual_pct :=
  C3_total_benefit_composition sampleInputs defaultAssumptions
    (by norm_num [defaultAssumptions]) (by norm_num [defaultAssumptions])

/-- C4: `compute_roi_pct` is total: for a non-positive price it returns
+infinity when the benefit is positive and 0 otherwise, and for a positive
price it returns `((benefit - price) / price) * 100`. -/
theorem C4_roi_totality (tb ap : ℚ) :
    (ap ≤ 0 → 0 < tb → compute_roi_pct tb ap = RoiVal.posInf) ∧
    (ap ≤ 0 → ¬ 0 < tb → compute_roi_pct tb ap = RoiVal.finite 0) ∧
    (0 < ap → compute_roi_pct tb ap = RoiVal.finite ((tb - ap) / ap * 100)) := by
  refine ⟨fun h1 h2 => ?_, fun h1 h2 => ?_, fun h1 => ?_⟩
  · simp [compute_roi_pct, h1, h2]
  · simp [compute_roi_pct, h1, h2]
  · simp [compute_roi_pct, not_le.mpr h1]

/-- Witness for C4 at `tb = 1`, `ap = 0`. -/
theorem C4_roi_totality_witness : compute_roi_pct 1 0 = RoiVal.posInf :=
  (C4_roi_totality 1 0).1 (le_refl 0) (by norm_num)

/-- C5: for the benefit total and price that `calculate_all` feeds into
`compute_roi_pct`, the resulting ROI is positive, zero or negative exactly
as the total exceeds, equals or falls short of the annual price. -/
theorem C5_roi_sign_trichotomy (inputs : Inputs) (assumptions : Assumptions) :
    ((calculate_all inputs assumptions).annual_price_usd <
        (calculate_all inputs assumptions).annualized_employee_savings_usd +
          (calculate_all inputs assumptions).bad_debt_savings_usd →
      (calculate_all inputs assumptions).roi_pct.isPos) ∧
    ((calculate_all inputs assumptions).annualized_employee_savings_usd +
        (calculate_all inputs assumptions).bad_debt_savings_usd =
        (calculate_all inputs assumptions).annual_price_usd →
      (calculate_all inputs assumptions).roi_pct.isZero) ∧
    ((calculate_all inputs assumptions).annualized_employee_savings_usd +
        (calculate_all inputs assumptions).bad_debt_savings_usd <
        (calculate_all inputs assumptions).annual_price_usd →
      (calculate_all inputs assumptions).roi_pct.isNeg) := by
  have hp0 : 0 < (determine_tier_and_price inputs.annual_revenue).2 :=
    price_pos inputs.annual_revenue
  have hp : 0 < (calculate_all inputs assumptions).annual_price_usd := hp0
  have hroi : (calculate_all inputs assumptions).roi_pct =
      RoiVal.finite
        (((calculate_all inputs assumptions).annualized_employee_savings_usd +
            (calculate_all inputs assumptions).bad_debt_savings_usd -
            (calculate_all inputs assumptions).annual_price_usd) /
          (calculate_all inputs assumptions).annual_price_usd * 100) := by
    show compute_roi_pct _ _ = _
    rw [compute_roi_pct, if_neg (not_le.mpr hp0)]
    rfl
  refine ⟨fun h => ?_, fun h => ?_, fun h => ?_⟩
  · rw [hroi]
    show 0 < _
    exact mul_pos (div_pos (sub_pos.mpr h) hp) (by norm_num)
  · rw [hroi]
    show _ = (0 : ℚ)
    rw [h, sub_self, zero_div, zero_mul]
  · rw [hroi]
    show _ < (0 : ℚ)
    exact mul_neg_of_neg_of_pos (div_neg_of_neg_of_pos (sub_neg.mpr h) hp) (by norm_num)

/-- Witness for C5 at the sample input, where the benefit total exceeds the
price. -/
theorem C5_roi_sign_trichotomy_witness :
    (calculate_all sampleInputs defaultAssumptions).roi_pct.isPos :=
  (C5_roi_sign_trichotomy sampleInputs defaultAssumptions).1
    (by rw [calculate_all_sample]; norm_num)

/-- C6: each of the four benefit metrics is non-negative for every input,
including negative magnitudes, thanks to the floor at zero. -/
theorem C6_benefit_metrics_nonneg (inputs : Inputs) (assumptions : Assumptions)
    (_hw : 0 < assumptions.working_days_per_year)
    (_hh : 0 < assumptions.hours_per_fte_per_year) :
    0 ≤ compute_cash_flow_improvement inputs assumptions ∧
    0 ≤ compute_annualized_employee_savings inputs assumptions ∧
    0 ≤ compute_productivity_hours_saved inputs assumptions ∧
    0 ≤ compute_bad_debt_savings inputs assumptions :=
  ⟨le_max_left 0 _, le_max_left 0 _, le_max_left 0 _, le_max_left 0 _⟩

/-- Witness for C6 at an input with negative revenue, headcount, DSO and
salary. -/
theorem C6_benefit_metrics_nonneg_witness :
    0 ≤ compute_cash_flow_improvement ⟨"X", -5, -2, -3, 0, -7, -1⟩ defaultAssumptions ∧
    0 ≤ compute_annualized_employee_savings ⟨"X", -5, -2, -3, 0, -7, -1⟩ defaultAssumptions ∧
    0 ≤ compute_productivity_hours_saved ⟨"X", -5, -2, -3, 0, -7, -1⟩ defaultAssumptions ∧
    0 ≤ compute_bad_debt_savings ⟨"X", -5, -2, -3, 0, -7, -1⟩ defaultAssumptions :=
  C6_benefit_metrics_nonneg ⟨"X", -5, -2, -3, 0, -7, -1⟩ defaultAssumptions
    (by norm_num [defaultAssumptions]) (by norm_num [defaultAssumptions])

/-- C7: the industry benchmark lookup returns `some` of the tabulated DSO
exactly on a matching name and `none` otherwise; the tabulated days are
`round (ratio * 365)` and evaluate to 44, 64, 53 and 67. -/
theorem C7_industry_benchmark_lookup :
    (∀ industry : String, ∀ e ∈ INDUSTRY_DATA, e.name = industry →
      get_industry_benchmark_dso industry = some e.benchmark_dso_days) ∧
    (∀ industry : String,
      get_industry_benchmark_dso industry = none ↔
        ∀ e ∈ INDUSTRY_DATA, e.name ≠ industry) ∧
    get_industry_benchmark_dso "Hospitals/Healthcare Facilities" = some 53 ∧
    get_industry_benchmark_dso "Nonexistent" = none ∧
    INDUSTRY_DATA.map (fun e => (e.name, e.benchmark_dso_days)) =
      [("Retail Distributors", round ((0.1216 : ℚ) * 365)),
       ("Chemical (Specialty)", round ((0.1764 : ℚ) * 365)),
       ("Hospitals/Healthcare Facilities", round ((0.1447 : ℚ) * 365)),
       ("Business & Consumer Services", round ((0.1829 : ℚ) * 365))] ∧
    INDUSTRY_DATA.map (fun e => e.benchmark_dso_days) = [44, 64, 53, 67] := by
  refine ⟨?_, ?_, ?_, ?_, rfl, ?_⟩
  · intro industry e he hn
    fin_cases he <;> subst hn <;>
      simp only [get_industry_benchmark_dso, INDUSTRY_DATA, List.find?, String.reduceBEq] <;>
      rfl
  · intro industry
    simp [get_industry_benchmark_dso, List.find?_eq_none, beq_iff_eq]
  · simp only [get_industry_benchmark_dso, INDUSTRY_DATA, List.find?, String.reduceBEq]
    norm_num [round_eq]
  · simp only [get_industry_benchmark_dso, INDUSTRY_DATA, List.find?, String.reduceBEq]
    norm_num
  · norm_num [INDUSTRY_DATA, round_eq]

/-- Witness for C7 at the Hospitals/Healthcare Facilities table entry. -/
theorem C7_industry_benchmark_lookup_witness :
    get_industry_benchmark_dso "Hospitals/Healthcare Facilities" =
      some (round ((0.1447 : ℚ) * 365)) :=
  C7_industry_benchmark_lookup.1 "Hospitals/Healthcare Facilities"
    ⟨"Hospitals/Healthcare Facilities", 0.1447, round ((0.1447 : ℚ) * 365)⟩
    (by simp [INDUSTRY_DATA]) rfl

/-- C8 (counterexample): with a negative `fte_salary_base` the floored
employee-savings value (0) differs from `productivity_hours_saved`
times the hourly wage (a negative number). -/
theorem C8_hours_savings_counterexample :
    0 < defaultAssumptions.hours_per_fte_per_year ∧
    compute_annualized_employee_savings negSalaryInputs defaultAssumptions ≠
      compute_productivity_hours_saved negSalaryInputs defaultAssumptions *
        (negSalaryInputs.fte_salary_base / defaultAssumptions.hours_per_fte_per_year) := by
  constructor
  · norm_num [defaultAssumptions]
  · norm_num [compute_annualized_employee_savings, compute_productivity_hours_saved,
      negSalaryInputs, defaultAssumptions]

/-- C8 (amended): when additionally `fte_salary_base ≥ 0`, the employee
savings equal the productivity hours saved times the hourly wage. -/
theorem C8_hours_savings_amended (inputs : Inputs) (assumptions : Assumptions)
    (hh : 0 < assumptions.hours_per_fte_per_year)
    (hs : 0 ≤ inputs.fte_salary_base) :
    compute_annualized_employee_savings inputs assumptions =
      compute_productivity_hours_saved inputs assumptions *
        (inputs.fte_salary_base / assumptions.hours_per_fte_per_year) := by
  have hc : 0 ≤ inputs.fte_salary_base / assumptions.hours_per_fte_per_year :=
    div_nonneg hs (le_of_lt hh)
  simp only [compute_annualized_employee_savings, compute_productivity_hours_saved]
  rw [max_mul_of_nonneg _ _ hc, zero_mul]
  congr 1
  ring

/-- Witness for C8 (amended) at the sample input. -/
theorem C8_hours_savings_amended_witness :
    compute_annualized_employee_savings sampleInputs defaultAssumptions =
      compute_productivity_hours_saved sampleInputs defaultAssumptions *
        (sampleInputs.fte_salary_base / defaultAssumptions.hours_per_fte_per_year) :=
  C8_hours_savings_amended sampleInputs defaultAssumptions
    (by norm_num [defaultAssumptions]) (by norm_num [sampleInputs])

/-- C9: every negative annual revenue falls through the scan and hits the
defensive fallback, which returns the last table row ("Enterprise",
100000). -/
theorem C9_negative_arr_fallback (q : ℚ) (h : q < 0) :
    determine_tier_and_price q = ("Enterprise", 100000) :=
  tier_neg q h

/-- Witness for C9 at `q = -1`. -/
theorem C9_negative_arr_fallback_witness :
    determine_tier_and_price (-1) = ("Enterprise", 100000) :=
  C9_negative_arr_fallback (-1) (by norm_num)

/-- C10: `calculate_all` always sets `annual_price_usd` to 12000, 60000 or
100000, hence positive, and `roi_pct` is always a finite value. -/
theorem C10_price_positive_roi_finite (inputs : Inputs) (assumptions : Assumptions)
    (_hw : 0 < assumptions.working_days_per_year)
    (_hh : 0 < assumptions.hours_per_fte_per_year) :
    ((calculate_all inputs assumptions).annual_price_usd = 12000 ∨
     (calculate_all inputs assumptions).annual_price_usd = 60000 ∨
     (calculate_all inputs assumptions).annual_price_usd = 100000) ∧
    0 < (calculate_all inputs assumptions).annual_price_usd ∧
    ∃ q : ℚ, (calculate_all inputs assumptions).roi_pct = RoiVal.finite q := by
  have hp0 : 0 < (determine_tier_and_price inputs.annual_revenue).2 :=
    price_pos inputs.annual_revenue
  refine ⟨?_, hp0, ?_⟩
  · have hprice : (calculate_all inputs assumptions).annual_price_usd =
        (determine_tier_and_price inputs.annual_revenue).2 := rfl
    rcases tier_cases inputs.annual_revenue with h | h | h <;>
      rw [hprice, h] <;> norm_num
  · refine ⟨(compute_annualized_employee_savings inputs assumptions +
        compute_bad_debt_savings inputs assumptions -
        (determine_tier_and_price inputs.annual_revenue).2) /
        (determine_tier_and_price inputs.annual_revenue).2 * 100, ?_⟩
    show compute_roi_pct _ _ = _
    rw [compute_roi_pct, if_neg (not_le.mpr hp0)]

/-- Witness for C10 at the sample input and default assumptions. -/
theorem C10_price_positive_roi_finite_witness :
    ((calculate_all sampleInputs defaultAssumptions).annual_price_usd = 12000 ∨
     (calculate_all sampleInputs defaultAssumptions).annual_price_usd = 60000 ∨
     (calculate_all sampleInputs defaultAssumptions).annual_price_usd = 100000) ∧
    0 < (calculate_all sampleInputs defaultAssumptions).annual_price_usd ∧
    ∃ q : ℚ, (calculate_all sampleInputs defaultAssumptions).roi_pct = RoiVal.finite q :=
  C10_price_positive_roi_finite sampleInputs defaultAssumptions
    (by norm_num [defaultAssumptions]) (by norm_num [defaultAssumptions])
